import Mathlib

/-!
Verification of the multi-tenant WhatsApp session / bulk-dispatch service.

The repository contains two evolving copies of the same Express service:
* `src/index.js`            — the simple variant (task stop feature, no ownership
                              gate on task endpoints); modelled below with suffix `V0`.
* `src/unnamed/part_000`    — the owner-aware variant (groups listing, ownership
                              checks); modelled below with suffix `V1`.

The embedding is shallow: each HTTP handler becomes a pure function from the
in-memory registries (`activeClients`, `activeTasks`, modelled as association
lists with JavaScript `Map.set` semantics) and the request fields (modelled as
`Option String`, `none` = absent, with JavaScript string truthiness) to the
updated registries and a response.  External asynchronous collaborators
(the Baileys client) are abstracted by explicit outcome parameters:
`SendOutcome` for one `client.sendMessage` call, `FetchOutcome` for one
`groupFetchAllParticipating` call, and a client-event trace for socket
creation/closing.  Wall-clock time (`Date.now()`) is an explicit `Nat`
parameter in milliseconds.
-/

namespace WpServer

/-- JavaScript truthiness of an optional string request field: absent and
empty string are falsy, everything else truthy. -/
def truthy : Option String → Bool
  | none => false
  | some s => decide (s ≠ "")

/-- JavaScript `a || b` for an optional string `a` and default `b`
(empty string falls through to the default). -/
def jsOr (a : Option String) (b : String) : String :=
  match a with
  | some s => if s = "" then b else s
  | none => b

/-- Does the character list start with the pattern? (helper for substring search). -/
def leadEq : List Char → List Char → Bool
  | _, [] => true
  | [], _ :: _ => false
  | a :: as, b :: bs => a == b && leadEq as bs

/-- Substring occurrence over character lists. -/
def hasSubChars (pat : List Char) : List Char → Bool
  | [] => leadEq [] pat
  | c :: rest => leadEq (c :: rest) pat || hasSubChars pat rest

/-- JavaScript `s.includes(pat)`. -/
def containsSub (s pat : String) : Bool := hasSubChars pat.data s.data

/-- JavaScript `s.split("\n")` over the character list. -/
def splitOnNl : List Char → List (List Char)
  | [] => [[]]
  | c :: rest =>
    let r := splitOnNl rest
    if c = '\n' then [] :: r
    else match r with
      | [] => [[c]]
      | h :: t => (c :: h) :: t

/-- Whitespace recognised by JavaScript `String.prototype.trim` (the common cases). -/
def isWsChar (c : Char) : Bool :=
  c == ' ' || c == '\t' || c == '\n' || c == '\r' || c == '\x0b' || c == '\x0c'

/-- JavaScript `s.trim()`. -/
def trimChars (cs : List Char) : List Char :=
  ((cs.dropWhile isWsChar).reverse.dropWhile isWsChar).reverse

/-- Parsing of the uploaded message file, from `/send-message`:
`contents.split("\n").map(m => m.trim()).filter(Boolean)`. -/
def parseMessages (s : String) : List String :=
  ((splitOnNl s.data).map (fun cs => String.mk (trimChars cs))).filter (fun m => m ≠ "")

/-- Lexicographic comparison of character lists (model of the ascending
`localeCompare` comparator used to sort group names). -/
def charsLt : List Char → List Char → Bool
  | [], [] => false
  | [], _ :: _ => true
  | _ :: _, [] => false
  | a :: as, b :: bs => if a = b then charsLt as bs else decide (a < b)

/-- String comparison used for group-name sorting. -/
def strLt (a b : String) : Bool := charsLt a.data b.data

/-- Lookup in a JavaScript `Map` modelled as an association list. -/
def mget {α : Type} (m : List (String × α)) (k : String) : Option α :=
  match m with
  | [] => none
  | (k1, v) :: rest => if k1 = k then some v else mget rest k

/-- JavaScript `Map.has`. -/
def mhas {α : Type} (m : List (String × α)) (k : String) : Bool :=
  (mget m k).isSome

/-- JavaScript `Map.set`: replace in place when the key exists, else append. -/
def mset {α : Type} (m : List (String × α)) (k : String) (v : α) : List (String × α) :=
  match m with
  | [] => [(k, v)]
  | (k1, v1) :: rest => if k1 = k then (k, v) :: rest else (k1, v1) :: mset rest k v

/-- One group entry as cached on a session (the object built in `/groups`,
`/refresh-groups` and the connection handlers; the ISO date strings are kept
as their millisecond timestamps). -/
structure GroupEntry where
  id : String
  name : String
  participants : Nat
  isAnnouncement : Bool
  isLocked : Bool
  creation : Option Nat
deriving DecidableEq, Repr

/-- One raw group as returned by the underlying
`client.groupFetchAllParticipating()` capability. -/
structure RawGroup where
  id : String
  subject : Option String
  participantsCount : Option Nat
  announcement : Option Bool
  locked : Option Bool
  creation : Option Nat
deriving DecidableEq, Repr

/-- The per-group mapping done in `/groups` and `/refresh-groups`:
`{ id, name: subject || 'Unknown Group', participants: participants ? length : 0, ... }`. -/
def mkGroupEntry (g : RawGroup) : GroupEntry :=
  { id := g.id
    name := jsOr g.subject "Unknown Group"
    participants := g.participantsCount.getD 0
    isAnnouncement := g.announcement.getD false
    isLocked := g.locked.getD false
    creation := g.creation }

/-- Ordered insertion for the by-name sort of group listings. -/
def insertByName (g : GroupEntry) : List GroupEntry → List GroupEntry
  | [] => [g]
  | h :: t => if strLt h.name g.name then h :: insertByName g t else g :: h :: t

/-- Model of `.sort((a, b) => a.name.localeCompare(b.name))`. -/
def sortGroups : List GroupEntry → List GroupEntry
  | [] => []
  | h :: t => insertByName h (sortGroups t)

/-- One entry of the `activeClients` map (the `sessionInfo` object).  The
opaque Baileys socket object is modelled by a numeric identity; `none` means
the `client` field is `null`. -/
structure SessionInfo where
  number : String
  ownerId : String
  authPath : String
  registered : Bool
  isConnecting : Bool
  client : Option Nat
  pairingCode : Option String
  reconnectAttempts : Nat
  maxReconnectAttempts : Nat
  groups : Option (List GroupEntry)
  groupsLastFetched : Option Nat
deriving DecidableEq, Repr

/-- One entry of the `activeTasks` map (the `taskInfo` object).  Dates are
millisecond timestamps. -/
structure TaskInfo where
  taskId : String
  sessionId : String
  ownerId : String
  isSending : Bool
  stopRequested : Bool
  totalMessages : Nat
  sentMessages : Nat
  target : String
  targetType : String
  msgPfx : String
  startTime : Nat
  lastUpdate : Nat
  error : Option String
  lastErrorAt : Option Nat
  endTime : Option Nat
  endedBy : Option String
  completed : Option Bool
  groupId : Option String
deriving DecidableEq, Repr

/-- The HTTP error taxonomy actually used by the handlers, by status code:
400, 404, 403, 500. -/
inductive ApiError
  | badRequest (msg : String)
  | notFound (msg : String)
  | accessDenied (msg : String)
  | serverError (msg : String)
deriving DecidableEq, Repr

/-- Is a result the 403 access-denied outcome? -/
def isAccessDenied {α : Type} : Except ApiError α → Bool
  | .error (.accessDenied _) => true
  | _ => false

/-- JavaScript `Math.round((sent / total) * 100)` for the progress field
(round half up, on nonnegative rationals). -/
def progressOf (sent total : Nat) : Nat := (200 * sent + total) / (2 * total)

/-- The JSON body served by `/task-status`. -/
structure StatusView where
  taskId : String
  status : String
  sentMessages : Nat
  totalMessages : Nat
  progress : Nat
  startTime : Nat
  endTime : Option Nat
  error : Option String
deriving DecidableEq, Repr

/-- The status string and counters `/task-status` derives from a task. -/
def viewTask (t : TaskInfo) : StatusView :=
  { taskId := t.taskId
    status := if t.isSending then "sending" else if t.stopRequested then "stopped" else "completed"
    sentMessages := t.sentMessages
    totalMessages := t.totalMessages
    progress := progressOf t.sentMessages t.totalMessages
    startTime := t.startTime
    endTime := t.endTime
    error := t.error }

/-- Acknowledgement body of `/stop-task`. -/
inductive StopAck
  | alreadyFinished (wasStopped : Bool)
  | stopped (sent total : Nat)
deriving DecidableEq, Repr

/-- `app.get("/task-status")` of `src/index.js` (no ownership input at all:
the handler reads only `req.query.taskId`). -/
def taskStatusV0 (tasks : List (String × TaskInfo)) (taskId : Option String) :
    Except ApiError StatusView :=
  if !truthy taskId then .error (.badRequest "Task ID is required")
  else match mget tasks (taskId.getD "") with
    | none => .error (.notFound "Task not found. It may be completed or never existed.")
    | some t => .ok (viewTask t)

/-- `app.get("/task-status")` of `src/unnamed/part_000`: same, plus the
conditional ownership gate `if (ownerId && taskInfo.ownerId !== ownerId)`. -/
def taskStatusV1 (tasks : List (String × TaskInfo)) (taskId ownerId : Option String) :
    Except ApiError StatusView :=
  if !truthy taskId then .error (.badRequest "Task ID is required")
  else match mget tasks (taskId.getD "") with
    | none => .error (.notFound "Task not found. It may be completed or never existed.")
    | some t =>
      if truthy ownerId ∧ t.ownerId ≠ ownerId.getD "" then
        .error (.accessDenied "Access denied. This task does not belong to you.")
      else .ok (viewTask t)

/-- `app.post("/stop-task")` of `src/index.js`.  Returns the (possibly
updated) task registry together with the response. -/
def stopTaskV0 (tasks : List (String × TaskInfo)) (taskId : Option String) (now : Nat) :
    List (String × TaskInfo) × Except ApiError StopAck :=
  if !truthy taskId then
    (tasks, .error (.badRequest "Task ID is required. Example: taskId=TASK_123456789"))
  else match mget tasks (taskId.getD "") with
    | none => (tasks, .error (.notFound "Task not found. It may be already completed or never existed."))
    | some t =>
      if !t.isSending then (tasks, .ok (.alreadyFinished t.stopRequested))
      else
        let t2 : TaskInfo :=
          { t with stopRequested := true, isSending := false,
                   endTime := some now, endedBy := some "user" }
        (mset tasks (taskId.getD "") t2, .ok (.stopped t2.sentMessages t2.totalMessages))

/-- `app.post("/stop-task")` of `src/unnamed/part_000`: same, plus the
conditional ownership gate placed between the registry lookup and the
already-finished check. -/
def stopTaskV1 (tasks : List (String × TaskInfo)) (taskId ownerId : Option String) (now : Nat) :
    List (String × TaskInfo) × Except ApiError StopAck :=
  if !truthy taskId then
    (tasks, .error (.badRequest "Task ID is required. Example: taskId=TASK_123456789"))
  else match mget tasks (taskId.getD "") with
    | none => (tasks, .error (.notFound "Task not found. It may be already completed or never existed."))
    | some t =>
      if truthy ownerId ∧ t.ownerId ≠ ownerId.getD "" then
        (tasks, .error (.accessDenied "Access denied. This task does not belong to you."))
      else if !t.isSending then (tasks, .ok (.alreadyFinished t.stopRequested))
      else
        let t2 : TaskInfo :=
          { t with stopRequested := true, isSending := false,
                   endTime := some now, endedBy := some "user" }
        (mset tasks (taskId.getD "") t2, .ok (.stopped t2.sentMessages t2.totalMessages))

/-- The `/user-tasks` filter of `src/unnamed/part_000`: only tasks whose
`ownerId` equals the requesting owner are listed. -/
def userTasks (tasks : List (String × TaskInfo)) (ownerId : String) :
    List (String × TaskInfo) :=
  tasks.filter (fun p => p.2.ownerId = ownerId)

/-- The body fields of a `/send-message` request. -/
structure StartReq where
  sessionId : Option String
  target : Option String
  targetType : Option String
  delaySec : Option String
  msgPfx : Option String
  ownerId : Option String
  groupId : Option String
deriving DecidableEq, Repr

/-- Task identifier generation: `TASK_${Date.now()}` — a function of the
wall-clock millisecond only. -/
def mkTaskId (now : Nat) : String := "TASK_" ++ toString now

/-- `app.post("/send-message")` of `src/index.js`, up to and including task
registration (the asynchronous dispatch loop is `runLoop`/`finalizeTask`
below, and the lazy client re-initialisation — an external await — is
abstracted by `reinitOk`, its success flag; on that path the session object
gains a fresh client, which does not affect the task registry).
`filePath` is the multer upload path (`none` = no file uploaded) and
`fileContents` the uploaded text.  Returns the task registry and either the
registered task or the synchronous error. -/
def sendMessageV0 (clients : List (String × SessionInfo)) (tasks : List (String × TaskInfo))
    (req : StartReq) (filePath : Option String) (fileContents : String)
    (reinitOk : Bool) (now : Nat) :
    List (String × TaskInfo) × Except ApiError TaskInfo :=
  if !truthy req.sessionId then (tasks, .error (.badRequest "Invalid or inactive sessionId"))
  else match mget clients (req.sessionId.getD "") with
  | none => (tasks, .error (.badRequest "Invalid or inactive sessionId"))
  | some s =>
    if !s.registered || s.isConnecting then
      (tasks, .error (.badRequest "Session not ready. Please wait for connection."))
    else if s.client.isNone && !reinitOk then
      (tasks, .error (.badRequest "Failed to initialize session: error"))
    else if !truthy req.target || !filePath.isSome || !truthy req.targetType || !truthy req.delaySec then
      (tasks, .error (.badRequest "Missing required fields"))
    else
      let taskId := mkTaskId now
      let messages := parseMessages fileContents
      if messages = [] then (tasks, .error (.badRequest "Invalid message file"))
      else
        let t : TaskInfo :=
          { taskId := taskId
            sessionId := req.sessionId.getD ""
            ownerId := jsOr req.ownerId "defaultUser"
            isSending := true
            stopRequested := false
            totalMessages := messages.length
            sentMessages := 0
            target := req.target.getD ""
            targetType := req.targetType.getD ""
            msgPfx := jsOr req.msgPfx ""
            startTime := now
            lastUpdate := now
            error := none
            lastErrorAt := none
            endTime := none
            endedBy := none
            completed := none
            groupId := none }
        (mset tasks taskId t, .ok t)

/-- `app.post("/send-message")` of `src/unnamed/part_000`: adds the
conditional ownership gate right after the session lookup, accepts `groupId`
as an alternative target for group sends, and defaults the task owner to the
session owner. -/
def sendMessageV1 (clients : List (String × SessionInfo)) (tasks : List (String × TaskInfo))
    (req : StartReq) (filePath : Option String) (fileContents : String)
    (reinitOk : Bool) (now : Nat) :
    List (String × TaskInfo) × Except ApiError TaskInfo :=
  if !truthy req.sessionId then (tasks, .error (.badRequest "Invalid or inactive sessionId"))
  else match mget clients (req.sessionId.getD "") with
  | none => (tasks, .error (.badRequest "Invalid or inactive sessionId"))
  | some s =>
    if truthy req.ownerId ∧ s.ownerId ≠ req.ownerId.getD "" then
      (tasks, .error (.accessDenied "Access denied. This session does not belong to you."))
    else if !s.registered || s.isConnecting then
      (tasks, .error (.badRequest "Session not ready. Please wait for connection."))
    else if s.client.isNone && !reinitOk then
      (tasks, .error (.badRequest "Failed to initialize session: error"))
    else if (!truthy req.target && !truthy req.groupId) || !filePath.isSome
        || !truthy req.targetType || !truthy req.delaySec then
      (tasks, .error (.badRequest "Missing required fields"))
    else
      let finalTarget :=
        if truthy req.groupId ∧ req.targetType.getD "" = "group" then req.groupId.getD ""
        else req.target.getD ""
      if finalTarget = "" then (tasks, .error (.badRequest "No target specified"))
      else
        let taskId := mkTaskId now
        let messages := parseMessages fileContents
        if messages = [] then (tasks, .error (.badRequest "Invalid message file"))
        else
          let t : TaskInfo :=
            { taskId := taskId
              sessionId := req.sessionId.getD ""
              ownerId := jsOr req.ownerId s.ownerId
              isSending := true
              stopRequested := false
              totalMessages := messages.length
              sentMessages := 0
              target := finalTarget
              targetType := req.targetType.getD ""
              msgPfx := jsOr req.msgPfx ""
              startTime := now
              lastUpdate := now
              error := none
              lastErrorAt := none
              endTime := none
              endedBy := none
              completed := none
              groupId := if truthy req.groupId then some (req.groupId.getD "") else none }
          (mset tasks taskId t, .ok t)

/-- Outcome of one `client.sendMessage` call, supplied by the external
transport. -/
inductive SendOutcome
  | ok
  | err (msg : String)
deriving DecidableEq, Repr

/-- The fatal-failure signature test of the dispatch loop:
`sendErr.message?.includes("closed") || sendErr.message?.includes("disconnected")`. -/
def fatalSendErr (m : String) : Bool :=
  containsSub m "closed" || containsSub m "disconnected"

/-- Message composition in the loop: `if (prefix) msg = prefix + " " + msg`. -/
def composeMsg (t : TaskInfo) (m : String) : String :=
  if t.msgPfx ≠ "" then t.msgPfx ++ " " ++ m else m

/-- Recipient resolution in the loop: append the network suffix for the
target kind when not already present. -/
def resolveRecipient (t : TaskInfo) : String :=
  if t.targetType = "group" then
    if containsSub t.target "@g.us" then t.target else t.target ++ "@g.us"
  else
    if containsSub t.target "@s.whatsapp.net" then t.target else t.target ++ "@s.whatsapp.net"

/-- One iteration body of the dispatch loop on the task state: on success
increment `sentMessages`, on failure record the error, and escalate a fatal
(closed/disconnected) transport failure into an internal stop request. -/
def stepItem (t : TaskInfo) (now : Nat) : SendOutcome → TaskInfo
  | .ok => { t with sentMessages := t.sentMessages + 1, lastUpdate := now }
  | .err m =>
    let t1 := { t with error := some m, lastErrorAt := some now }
    if fatalSendErr m then
      { t1 with stopRequested := true, error := some "Session disconnected. Please reconnect." }
    else t1

/-- The dispatch loop of `/send-message` on the task state: one step per
message, stopping as soon as `stopRequested` is observed.  Each list entry
pairs the raw message (whose composed payload `composeMsg t m` is sent to
`resolveRecipient t`) with the external outcome of that send.  The
inter-item pacing delay does not change the task state and is elided. -/
def runLoop (now : Nat) (t : TaskInfo) : List (String × SendOutcome) → TaskInfo
  | [] => t
  | (_, o) :: rest => if t.stopRequested then t else runLoop now (stepItem t now o) rest

/-- The `finally` block of the dispatch loop: stamp `endTime`, clear
`isSending`, record `completed = !stopRequested`. -/
def finalizeTask (now : Nat) (t : TaskInfo) : TaskInfo :=
  { t with endTime := some now, isSending := false, completed := some (!t.stopRequested) }

/-- All-successful steps for a list of messages. -/
def okSteps (ms : List String) : List (String × SendOutcome) :=
  ms.map (fun m => (m, SendOutcome.ok))

/-- Creation/closing events on the opaque underlying client objects
(the instrumentation the spec asks for: `makeWASocket` emits a create,
`client.end()` a close). -/
inductive ClientEvent
  | create (id : Nat)
  | close (id : Nat)
deriving DecidableEq, Repr

/-- The client objects created and not yet closed after a trace of events. -/
def liveClients (trace : List ClientEvent) : List Nat :=
  trace.foldl
    (fun acc e =>
      match e with
      | .create i => acc ++ [i]
      | .close i => acc.filter (fun j => j ≠ i))
    []

/-- `initializeClient(sessionId, sessionInfo)` of `src/index.js` (the
reconnection path): on success it builds a fresh socket and overwrites
`sessionInfo.client` with it — the function contains no `client.end()` call
on the previous client object.  On failure (`authOk = false`, the awaits
threw) it only clears `isConnecting`.  Returns the mutated session and the
client events the call emits. -/
def initializeClient (s : SessionInfo) (authOk : Bool) (newClientId : Nat) :
    SessionInfo × List ClientEvent :=
  if authOk then
    ({ s with client := some newClientId, isConnecting := true }, [ClientEvent.create newClientId])
  else
    ({ s with isConnecting := false }, [])

/-- Outcome of one `client.groupFetchAllParticipating()` call. -/
inductive FetchOutcome
  | ok (gs : List RawGroup)
  | fail (msg : String)
deriving DecidableEq, Repr

/-- The JSON body served by `/groups` (and, with `cached = false`, by
`/refresh-groups`). -/
structure GroupsResp where
  groups : List GroupEntry
  total : Nat
  cached : Bool
deriving DecidableEq, Repr

/-- The cache-validity test of `/groups`:
`sessionInfo.groups && sessionInfo.groupsLastFetched` (JavaScript truthiness:
a `null` list or a `null`/zero timestamp fails it; an empty array passes)
and `groupsLastFetched > Date.now() - 5 * 60 * 1000`. -/
def cacheFresh (s : SessionInfo) (now : Nat) : Bool :=
  match s.groups, s.groupsLastFetched with
  | some _, some lf => decide (lf ≠ 0) && decide ((lf : Int) > (now : Int) - 5 * 60 * 1000)
  | _, _ => false

/-- JavaScript `a || b` on plain strings (for error-message defaulting). -/
def jsOrStr (a b : String) : String := if a = "" then b else a

/-- `app.get("/groups")` of `src/unnamed/part_000`.  Returns the (possibly
updated) session registry, the response, and the number of underlying
`groupFetchAllParticipating` calls issued (0 or 1). -/
def getGroups (clients : List (String × SessionInfo)) (sessionId ownerId : Option String)
    (now : Nat) (fetch : FetchOutcome) :
    List (String × SessionInfo) × Except ApiError GroupsResp × Nat :=
  if !truthy sessionId || !truthy ownerId then
    (clients, .error (.badRequest "Session ID and Owner ID are required"), 0)
  else match mget clients (sessionId.getD "") with
  | none => (clients, .error (.notFound "Session not found"), 0)
  | some s =>
    if s.ownerId ≠ ownerId.getD "" then
      (clients, .error (.accessDenied "Access denied. This session does not belong to you."), 0)
    else if !s.registered || s.isConnecting then
      (clients, .error (.badRequest "Session not ready. Please wait for connection."), 0)
    else if cacheFresh s now then
      let gs := s.groups.getD []
      (clients, .ok { groups := gs, total := gs.length, cached := true }, 0)
    else match s.client with
      | none => (clients, .error (.badRequest "Client not initialized"), 0)
      | some _ =>
        match fetch with
        | .fail m =>
          (clients, .error (.serverError ("Failed to fetch groups: " ++ jsOrStr m "Unknown error")), 1)
        | .ok raw =>
          let gs := sortGroups (raw.map mkGroupEntry)
          (mset clients (sessionId.getD "") { s with groups := some gs, groupsLastFetched := some now },
           .ok { groups := gs, total := gs.length, cached := false }, 1)

/-- `app.post("/refresh-groups")` of `src/unnamed/part_000`: bypasses the
freshness check unconditionally, and clears the cached groups and timestamp
BEFORE issuing the fetch, so a failed fetch leaves the cache cleared. -/
def refreshGroups (clients : List (String × SessionInfo)) (sessionId ownerId : Option String)
    (now : Nat) (fetch : FetchOutcome) :
    List (String × SessionInfo) × Except ApiError GroupsResp × Nat :=
  if !truthy sessionId || !truthy ownerId then
    (clients, .error (.badRequest "Session ID and Owner ID are required"), 0)
  else match mget clients (sessionId.getD "") with
  | none => (clients, .error (.notFound "Session not found"), 0)
  | some s =>
    if s.ownerId ≠ ownerId.getD "" then
      (clients, .error (.accessDenied "Access denied. This session does not belong to you."), 0)
    else if !s.registered || s.isConnecting then
      (clients, .error (.badRequest "Session not ready. Please wait for connection."), 0)
    else match s.client with
      | none => (clients, .error (.badRequest "Client not initialized"), 0)
      | some _ =>
        let sCleared := { s with groups := none, groupsLastFetched := none }
        let clientsCleared := mset clients (sessionId.getD "") sCleared
        match fetch with
        | .fail m =>
          (clientsCleared,
           .error (.serverError ("Failed to refresh groups: " ++ jsOrStr m "Unknown error")), 1)
        | .ok raw =>
          let gs := sortGroups (raw.map mkGroupEntry)
          (mset clientsCleared (sessionId.getD "")
             { sCleared with groups := some gs, groupsLastFetched := some now },
           .ok { groups := gs, total := gs.length, cached := false }, 1)

/-! Concrete fixtures used by witnesses and counterexamples. -/

/-- A connected session owned by tenant `A` with a live client object `1`. -/
def demoSession : SessionInfo :=
  { number := "15550001"
    ownerId := "A"
    authPath := "temp/session_15550001_A"
    registered := true
    isConnecting := false
    client := some 1
    pairingCode := some "ABC123"
    reconnectAttempts := 0
    maxReconnectAttempts := 3
    groups := none
    groupsLastFetched := none }

/-- A client registry holding only `demoSession`. -/
def demoClients : List (String × SessionInfo) :=
  [("session_15550001_A", demoSession)]

/-- A running task owned by tenant `A`. -/
def demoTaskA : TaskInfo :=
  { taskId := "TASK_100"
    sessionId := "session_15550001_A"
    ownerId := "A"
    isSending := true
    stopRequested := false
    totalMessages := 3
    sentMessages := 1
    target := "15550002"
    targetType := "individual"
    msgPfx := ""
    startTime := 100
    lastUpdate := 100
    error := none
    lastErrorAt := none
    endTime := none
    endedBy := none
    completed := none
    groupId := none }

/-- A task registry holding only `demoTaskA`. -/
def demoTasks : List (String × TaskInfo) :=
  [("TASK_100", demoTaskA)]

/-- A well-formed start request against `demoSession`. -/
def demoReq : StartReq :=
  { sessionId := some "session_15550001_A"
    target := some "15550002"
    targetType := some "individual"
    delaySec := some "1"
    msgPfx := none
    ownerId := some "A"
    groupId := none }

/-- The same start request with a different target (a second, distinct request). -/
def demoReqB : StartReq :=
  { demoReq with target := some "15550003" }

/-- A start request carrying a negative inter-item delay. -/
def demoReqNegDelay : StartReq :=
  { demoReq with delaySec := some "-1" }

/-- First start call of the identifier-collision scenario, at millisecond 777. -/
def c9run1 : List (String × TaskInfo) × Except ApiError TaskInfo :=
  sendMessageV0 demoClients [] demoReq (some "uploads/f1") "a\nb" true 777

/-- Second start call, same millisecond, against the registry left by the first. -/
def c9run2 : List (String × TaskInfo) × Except ApiError TaskInfo :=
  sendMessageV0 demoClients c9run1.1 demoReqB (some "uploads/f2") "c\nd" true 777

/-- A cached directory entry. -/
def demoGroup : GroupEntry :=
  { id := "g1@g.us", name := "Alpha", participants := 2,
    isAnnouncement := false, isLocked := false, creation := none }

/-- A session of owner `A` with a one-entry cached directory fetched at
millisecond 100000. -/
def demoCachedSession : SessionInfo :=
  { demoSession with groups := some [demoGroup], groupsLastFetched := some 100000 }

/-- A client registry holding only `demoCachedSession`. -/
def demoCachedClients : List (String × SessionInfo) :=
  [("session_15550001_A", demoCachedSession)]

/-- A freshly started ten-item task (the scenario-D shape). -/
def demoTask10 : TaskInfo :=
  { demoTaskA with taskId := "TASK_500", totalMessages := 10, sentMessages := 0, startTime := 500 }

/-- The task registered by the first collision-scenario start call. -/
def c9task1 : TaskInfo :=
  { taskId := "TASK_777"
    sessionId := "session_15550001_A"
    ownerId := "A"
    isSending := true
    stopRequested := false
    totalMessages := 2
    sentMessages := 0
    target := "15550002"
    targetType := "individual"
    msgPfx := ""
    startTime := 777
    lastUpdate := 777
    error := none
    lastErrorAt := none
    endTime := none
    endedBy := none
    completed := none
    groupId := none }

/-- The task registered by the second collision-scenario start call. -/
def c9task2 : TaskInfo :=
  { c9task1 with target := "15550003" }

/-- The demo task after a user stop at millisecond 200. -/
def demoTaskAStopped : TaskInfo :=
  { demoTaskA with stopRequested := true, isSending := false,
                   endTime := some 200, endedBy := some "user" }

/-! Helper lemmas shared by several claims. -/

theorem mget_mset {α : Type} (m : List (String × α)) (k k2 : String) (v : α) :
    mget (mset m k v) k2 = if k = k2 then some v else mget m k2 := by
  induction m with
  | nil =>
    simp [mset, mget]
  | cons p rest ih =>
    obtain ⟨k1, v1⟩ := p
    simp only [mset]
    by_cases h1 : k1 = k
    · subst h1
      simp only [if_pos rfl, mget]
      by_cases h2 : k1 = k2
      · simp [h2]
      · simp [h2]
    · simp only [if_neg h1, mget]
      by_cases h2 : k1 = k2
      · subst h2
        have hne : ¬ k = k1 := fun hh => h1 hh.symm
        simp [hne]
      · simp [h2, ih]

theorem stepItem_sent_le (t : TaskInfo) (now : Nat) (o : SendOutcome) :
    t.sentMessages ≤ (stepItem t now o).sentMessages := by
  cases o with
  | ok => simp [stepItem]
  | err m =>
    simp only [stepItem]
    split <;> simp

theorem stepItem_sent_le_succ (t : TaskInfo) (now : Nat) (o : SendOutcome) :
    (stepItem t now o).sentMessages ≤ t.sentMessages + 1 := by
  cases o with
  | ok => simp [stepItem]
  | err m =>
    simp only [stepItem]
    split <;> simp [Nat.le_succ]

theorem stepItem_total (t : TaskInfo) (now : Nat) (o : SendOutcome) :
    (stepItem t now o).totalMessages = t.totalMessages := by
  cases o with
  | ok => simp [stepItem]
  | err m =>
    simp only [stepItem]
    split <;> simp

theorem stepItem_ok_fields (t : TaskInfo) (now : Nat) :
    (stepItem t now SendOutcome.ok).sentMessages = t.sentMessages + 1
    ∧ (stepItem t now SendOutcome.ok).stopRequested = t.stopRequested
    ∧ (stepItem t now SendOutcome.ok).error = t.error := by
  simp [stepItem]

theorem stepItem_err_fatal (t : TaskInfo) (now : Nat) (m : String)
    (h : fatalSendErr m = true) :
    (stepItem t now (SendOutcome.err m)).sentMessages = t.sentMessages
    ∧ (stepItem t now (SendOutcome.err m)).stopRequested = true
    ∧ (stepItem t now (SendOutcome.err m)).error = some "Session disconnected. Please reconnect." := by
  simp [stepItem, h]

theorem stepItem_err_nonfatal (t : TaskInfo) (now : Nat) (m : String)
    (h : fatalSendErr m = false) :
    (stepItem t now (SendOutcome.err m)).sentMessages = t.sentMessages
    ∧ (stepItem t now (SendOutcome.err m)).stopRequested = t.stopRequested
    ∧ (stepItem t now (SendOutcome.err m)).error = some m := by
  simp [stepItem, h]

theorem runLoop_stopped (now : Nat) (t : TaskInfo) (steps : List (String × SendOutcome))
    (h : t.stopRequested = true) : runLoop now t steps = t := by
  cases steps with
  | nil => rfl
  | cons a rest =>
    obtain ⟨m, o⟩ := a
    simp [runLoop, h]

theorem runLoop_sent_mono (now : Nat) (t : TaskInfo) (steps : List (String × SendOutcome)) :
    t.sentMessages ≤ (runLoop now t steps).sentMessages := by
  induction steps generalizing t with
  | nil => simp [runLoop]
  | cons a rest ih =>
    obtain ⟨m, o⟩ := a
    simp only [runLoop]
    split
    · exact Nat.le_refl _
    · exact Nat.le_trans (stepItem_sent_le t now o) (ih (stepItem t now o))

theorem runLoop_sent_le_add (now : Nat) (t : TaskInfo) (steps : List (String × SendOutcome)) :
    (runLoop now t steps).sentMessages ≤ t.sentMessages + steps.length := by
  induction steps generalizing t with
  | nil => simp [runLoop]
  | cons a rest ih =>
    obtain ⟨m, o⟩ := a
    simp only [runLoop]
    split
    · exact Nat.le_add_right _ _
    · have h1 := ih (stepItem t now o)
      have h2 := stepItem_sent_le_succ t now o
      simp only [List.length_cons]
      omega

theorem runLoop_total (now : Nat) (t : TaskInfo) (steps : List (String × SendOutcome)) :
    (runLoop now t steps).totalMessages = t.totalMessages := by
  induction steps generalizing t with
  | nil => simp [runLoop]
  | cons a rest ih =>
    obtain ⟨m, o⟩ := a
    simp only [runLoop]
    split
    · rfl
    · rw [ih (stepItem t now o), stepItem_total]

theorem runLoop_append (now : Nat) (t : TaskInfo) (s1 s2 : List (String × SendOutcome)) :
    runLoop now t (s1 ++ s2) = runLoop now (runLoop now t s1) s2 := by
  induction s1 generalizing t with
  | nil => simp [runLoop]
  | cons a rest ih =>
    obtain ⟨m, o⟩ := a
    simp only [List.cons_append, runLoop]
    split
    · rename_i h
      rw [runLoop_stopped now t s2 h]
    · exact ih (stepItem t now o)

theorem runLoop_cons_active (now : Nat) (t : TaskInfo) (m : String) (o : SendOutcome)
    (rest : List (String × SendOutcome)) (h : t.stopRequested = false) :
    runLoop now t ((m, o) :: rest) = runLoop now (stepItem t now o) rest := by
  simp [runLoop, h]

theorem runLoop_okSteps (now : Nat) (ms : List String) (t : TaskInfo)
    (h : t.stopRequested = false) :
    (runLoop now t (okSteps ms)).sentMessages = t.sentMessages + ms.length
    ∧ (runLoop now t (okSteps ms)).stopRequested = false
    ∧ (runLoop now t (okSteps ms)).error = t.error := by
  induction ms generalizing t with
  | nil => simp [okSteps, runLoop, h]
  | cons m rest ih =>
    have hstep : (stepItem t now SendOutcome.ok).stopRequested = false := by
      simp [stepItem, h]
    obtain ⟨ihs, ihr, ihe⟩ := ih (stepItem t now SendOutcome.ok) hstep
    have hok : okSteps (m :: rest) = (m, SendOutcome.ok) :: okSteps rest := rfl
    rw [hok, runLoop_cons_active now t m SendOutcome.ok (okSteps rest) h]
    refine ⟨?_, ihr, ?_⟩
    · rw [ihs, (stepItem_ok_fields t now).1]
      simp only [List.length_cons]
      omega
    · rw [ihe, (stepItem_ok_fields t now).2.2]

theorem finalizeTask_fields (now : Nat) (t : TaskInfo) :
    (finalizeTask now t).sentMessages = t.sentMessages
    ∧ (finalizeTask now t).totalMessages = t.totalMessages
    ∧ (finalizeTask now t).isSending = false
    ∧ (finalizeTask now t).stopRequested = t.stopRequested
    ∧ (finalizeTask now t).error = t.error
    ∧ (finalizeTask now t).endTime = some now
    ∧ (finalizeTask now t).completed = some (!t.stopRequested) := by
  simp [finalizeTask]

theorem sendMessageV0_ok {clients : List (String × SessionInfo)}
    {tasks tasks2 : List (String × TaskInfo)} {req : StartReq} {fp : Option String}
    {fc : String} {ro : Bool} {now : Nat} {t : TaskInfo}
    (h : sendMessageV0 clients tasks req fp fc ro now = (tasks2, Except.ok t)) :
    t.taskId = mkTaskId now ∧ t.sentMessages = 0
    ∧ t.totalMessages = (parseMessages fc).length
    ∧ tasks2 = mset tasks (mkTaskId now) t := by
  simp only [sendMessageV0] at h
  split at h
  · simp at h
  · split at h
    · simp at h
    · split at h
      · simp at h
      · split at h
        · simp at h
        · split at h
          · simp at h
          · split at h
            · simp at h
            · rw [Prod.mk.injEq] at h
              obtain ⟨h1, h2⟩ := h
              rw [Except.ok.injEq] at h2
              subst h2
              subst h1
              refine ⟨rfl, rfl, rfl, rfl⟩

/-! Claim theorems. -/

/-- C2: for every task, `sentMessages` is monotonically non-decreasing along
the dispatch loop and never exceeds the number of loop steps added to its
starting value; `totalMessages` is loop-invariant; intermediate loop states
are themselves loop states (append decomposition), so the bound holds at
every point; a task accepted by `/send-message` starts with
`sentMessages = 0` and `totalMessages` equal to the number of parsed items
(so running the loop over its items keeps `sentMessages ≤ totalMessages`
throughout); and the stop and finalize operations preserve both counters. -/
theorem C2_sentCount_invariant :
    (∀ now t steps, t.sentMessages ≤ (runLoop now t steps).sentMessages)
    ∧ (∀ now t steps, (runLoop now t steps).sentMessages ≤ t.sentMessages + steps.length)
    ∧ (∀ now t steps, (runLoop now t steps).totalMessages = t.totalMessages)
    ∧ (∀ now t s1 s2, runLoop now t (s1 ++ s2) = runLoop now (runLoop now t s1) s2)
    ∧ (∀ clients tasks req fp fc ro now tasks2 t,
        sendMessageV0 clients tasks req fp fc ro now = (tasks2, Except.ok t) →
        t.sentMessages = 0 ∧ t.totalMessages = (parseMessages fc).length)
    ∧ (∀ tasks tid now k u, mget (stopTaskV0 tasks tid now).1 k = some u →
        ∃ v, mget tasks k = some v ∧ u.sentMessages = v.sentMessages
          ∧ u.totalMessages = v.totalMessages)
    ∧ (∀ now t, (finalizeTask now t).sentMessages = t.sentMessages
        ∧ (finalizeTask now t).totalMessages = t.totalMessages) := by
  refine ⟨runLoop_sent_mono, runLoop_sent_le_add, runLoop_total, runLoop_append, ?_, ?_, ?_⟩
  · intro clients tasks req fp fc ro now tasks2 t h
    obtain ⟨_, h2, h3, _⟩ := sendMessageV0_ok h
    exact ⟨h2, h3⟩
  · intro tasks tid now k u h
    simp only [stopTaskV0] at h
    split at h
    · exact ⟨u, h, rfl, rfl⟩
    · split at h
      · exact ⟨u, h, rfl, rfl⟩
      · rename_i t ht
        split at h
        · exact ⟨u, h, rfl, rfl⟩
        · simp only [mget_mset] at h
          split at h
          · rename_i hk
            refine ⟨t, ?_, ?_, ?_⟩
            · rw [← hk]; exact ht
            · rw [Option.some.injEq] at h; rw [← h]
            · rw [Option.some.injEq] at h; rw [← h]
          · exact ⟨u, h, rfl, rfl⟩
  · intro now t
    exact ⟨(finalizeTask_fields now t).1, (finalizeTask_fields now t).2.1⟩

/-- Witness for C2: a stop call on the demo registry preserves both counters
of the stored task. -/
theorem C2_witness :
    ∃ v, mget demoTasks "TASK_100" = some v
      ∧ demoTaskAStopped.sentMessages = v.sentMessages
      ∧ demoTaskAStopped.totalMessages = v.totalMessages :=
  C2_sentCount_invariant.2.2.2.2.2.1 demoTasks (some "TASK_100") 200 "TASK_100"
    demoTaskAStopped (by decide)

/-- C3: on an existing task, `/stop-task` is a no-op success when the task is
no longer sending, and otherwise synchronously sets the cancellation signal,
clears `isSending`, stamps `endTime = now`, and makes the queryable
`/task-status` view report "stopped" before the call returns — independently
of the background loop, which only observes `stopRequested` later. -/
theorem C3_stop_transitions (tasks : List (String × TaskInfo)) (tid : String) (t : TaskInfo)
    (now : Nat) (htid : tid ≠ "") (hget : mget tasks tid = some t) :
    (t.isSending = false →
      stopTaskV0 tasks (some tid) now = (tasks, Except.ok (StopAck.alreadyFinished t.stopRequested)))
    ∧ (t.isSending = true →
      stopTaskV0 tasks (some tid) now =
        (mset tasks tid { t with stopRequested := true, isSending := false,
                                 endTime := some now, endedBy := some "user" },
         Except.ok (StopAck.stopped t.sentMessages t.totalMessages))
      ∧ taskStatusV0 (stopTaskV0 tasks (some tid) now).1 (some tid)
          = Except.ok (viewTask { t with stopRequested := true, isSending := false,
                                         endTime := some now, endedBy := some "user" })
      ∧ (viewTask { t with stopRequested := true, isSending := false,
                           endTime := some now, endedBy := some "user" }).status = "stopped"
      ∧ ({ t with stopRequested := true, isSending := false,
                  endTime := some now, endedBy := some "user" } : TaskInfo).endTime = some now) := by
  have htr : truthy (some tid) = true := by simp [truthy, htid]
  constructor
  · intro hs
    simp [stopTaskV0, htr, hget, hs]
  · intro hs
    have hstop : stopTaskV0 tasks (some tid) now =
        (mset tasks tid { t with stopRequested := true, isSending := false,
                                 endTime := some now, endedBy := some "user" },
         Except.ok (StopAck.stopped t.sentMessages t.totalMessages)) := by
      simp [stopTaskV0, htr, hget, hs]
    refine ⟨hstop, ?_, ?_, rfl⟩
    · rw [hstop]
      simp [taskStatusV0, htr, mget_mset]
    · simp [viewTask]

/-- Witness for C3: stopping the running demo task mutates it and its
queryable status becomes "stopped" synchronously. -/
theorem C3_witness :
    stopTaskV0 demoTasks (some "TASK_100") 200 =
      (mset demoTasks "TASK_100" demoTaskAStopped,
       Except.ok (StopAck.stopped demoTaskA.sentMessages demoTaskA.totalMessages))
    ∧ taskStatusV0 (stopTaskV0 demoTasks (some "TASK_100") 200).1 (some "TASK_100")
        = Except.ok (viewTask demoTaskAStopped)
    ∧ (viewTask demoTaskAStopped).status = "stopped"
    ∧ demoTaskAStopped.endTime = some 200 :=
  (C3_stop_transitions demoTasks "TASK_100" demoTaskA 200 (by decide) (by decide)).2 (by decide)

/-- C4: when a send fails with a transport-gone signature (message containing
"closed" or "disconnected") after `pre.length` successful sends, the loop
records the disconnect error, stops without processing the remaining items,
and the finalized task reports `sentMessages = pre.length` additions with a
"stopped" status — not "completed"; a non-fatal send failure records the
error and the loop continues through the remaining items. -/
theorem C4_fatal_transport (t : TaskInfo) (now now2 : Nat) (pre post : List String)
    (item m : String) (rest : List (String × SendOutcome))
    (hstop : t.stopRequested = false) :
    (fatalSendErr m = true →
      (finalizeTask now2 (runLoop now t (okSteps pre ++ (item, SendOutcome.err m) :: rest))).sentMessages
          = t.sentMessages + pre.length
        ∧ (finalizeTask now2 (runLoop now t (okSteps pre ++ (item, SendOutcome.err m) :: rest))).stopRequested = true
        ∧ (finalizeTask now2 (runLoop now t (okSteps pre ++ (item, SendOutcome.err m) :: rest))).error
          = some "Session disconnected. Please reconnect."
        ∧ (viewTask (finalizeTask now2 (runLoop now t (okSteps pre ++ (item, SendOutcome.err m) :: rest)))).status
          = "stopped"
        ∧ (viewTask (finalizeTask now2 (runLoop now t (okSteps pre ++ (item, SendOutcome.err m) :: rest)))).status
          ≠ "completed")
    ∧ (fatalSendErr m = false →
      (runLoop now t (okSteps pre ++ (item, SendOutcome.err m) :: okSteps post)).sentMessages
          = t.sentMessages + pre.length + post.length
        ∧ (runLoop now t (okSteps pre ++ (item, SendOutcome.err m) :: okSteps post)).error = some m) := by
  have h1 := runLoop_okSteps now pre t hstop
  constructor
  · intro hf
    rw [runLoop_append,
        runLoop_cons_active now (runLoop now t (okSteps pre)) item (SendOutcome.err m) rest h1.2.1]
    have h2 := stepItem_err_fatal (runLoop now t (okSteps pre)) now m hf
    rw [runLoop_stopped now (stepItem (runLoop now t (okSteps pre)) now (SendOutcome.err m)) rest h2.2.1]
    have hfin := finalizeTask_fields now2 (stepItem (runLoop now t (okSteps pre)) now (SendOutcome.err m))
    refine ⟨?_, ?_, ?_, ?_, ?_⟩
    · rw [hfin.1, h2.1, h1.1]
    · rw [hfin.2.2.2.1, h2.2.1]
    · rw [hfin.2.2.2.2.1, h2.2.2]
    · simp [viewTask, hfin.2.2.1, hfin.2.2.2.1, h2.2.1]
    · simp [viewTask, hfin.2.2.1, hfin.2.2.2.1, h2.2.1]
  · intro hf
    rw [runLoop_append,
        runLoop_cons_active now (runLoop now t (okSteps pre)) item (SendOutcome.err m) (okSteps post) h1.2.1]
    have h2 := stepItem_err_nonfatal (runLoop now t (okSteps pre)) now m hf
    have h3 := runLoop_okSteps now post (stepItem (runLoop now t (okSteps pre)) now (SendOutcome.err m))
      (by rw [h2.2.1, h1.2.1])
    constructor
    · rw [h3.1, h2.1, h1.1]
    · rw [h3.2.2, h2.2.2]

/-- Witness for C4: scenario D — a "closed" transport error on item 5 of 10
ends the task with four sends recorded and a "stopped" (never "completed")
status, while a non-fatal rejection on item 5 lets the task keep sending. -/
theorem C4_witness :
    (finalizeTask 999 (runLoop 5 demoTask10
        (okSteps ["a", "b", "c", "d"] ++ ("e", SendOutcome.err "Connection closed")
          :: okSteps ["f", "g", "h", "i", "j"]))).sentMessages
        = demoTask10.sentMessages + 4
    ∧ (viewTask (finalizeTask 999 (runLoop 5 demoTask10
        (okSteps ["a", "b", "c", "d"] ++ ("e", SendOutcome.err "Connection closed")
          :: okSteps ["f", "g", "h", "i", "j"])))).status = "stopped"
    ∧ (runLoop 5 demoTask10
        (okSteps ["a", "b", "c", "d"] ++ ("e", SendOutcome.err "rate limited")
          :: okSteps ["f", "g", "h", "i", "j"])).sentMessages
        = demoTask10.sentMessages + 4 + 5 := by
  have hfatal := (C4_fatal_transport demoTask10 5 999 ["a", "b", "c", "d"] ["f", "g", "h", "i", "j"]
    "e" "Connection closed" (okSteps ["f", "g", "h", "i", "j"]) (by decide)).1 (by decide)
  have hcont := (C4_fatal_transport demoTask10 5 999 ["a", "b", "c", "d"] ["f", "g", "h", "i", "j"]
    "e" "rate limited" (okSteps ["f", "g", "h", "i", "j"]) (by decide)).2 (by decide)
  exact ⟨hfatal.1, hfatal.2.2.2.1, hcont.1⟩

/-- Counterexample for C1: in the simple variant (src/index.js) the
task-status and stop-task handlers read no requester identity at all, so a
request issued by any other owner against a task owned by "A" succeeds with
the full task data instead of failing with access-denied — it can even stop
the task.  The entity is therefore visible to queries made as any owner. -/
theorem C1_counterexample :
    demoTaskA.ownerId = "A"
    ∧ (taskStatusV0 demoTasks (some "TASK_100")).toOption = some (viewTask demoTaskA)
    ∧ isAccessDenied (taskStatusV0 demoTasks (some "TASK_100")) = false
    ∧ ((stopTaskV0 demoTasks (some "TASK_100") 200).2).toOption = some (StopAck.stopped 1 3)
    ∧ isAccessDenied (stopTaskV0 demoTasks (some "TASK_100") 200).2 = false := by
  decide

/-- C1 (amended): in the owner-aware variant (src/unnamed/part_000),
task-status, stop-task and send-message fail with a 403 access-denied error
— a constructor distinct from the 404 not-found error — whenever the request
supplies a non-empty `ownerId` different from the entity's owner, and the
per-owner task listing shows only tasks of the requesting owner.  In the
simple variant (src/index.js) the task endpoints carry no ownership gate at
all (see the counterexample), and an omitted `ownerId` bypasses the gate in
the owner-aware variant as well (claim C10). -/
theorem C1_ownership_gate :
    (∀ tasks tid t o now, tid ≠ "" → o ≠ "" → mget tasks tid = some t → t.ownerId ≠ o →
      taskStatusV1 tasks (some tid) (some o)
          = Except.error (ApiError.accessDenied "Access denied. This task does not belong to you.")
        ∧ stopTaskV1 tasks (some tid) (some o) now
          = (tasks, Except.error (ApiError.accessDenied "Access denied. This task does not belong to you.")))
    ∧ (∀ clients tasks req fp fc ro now s o, req.ownerId = some o → o ≠ "" →
        truthy req.sessionId = true → mget clients (req.sessionId.getD "") = some s →
        s.ownerId ≠ o →
        sendMessageV1 clients tasks req fp fc ro now
          = (tasks, Except.error (ApiError.accessDenied "Access denied. This session does not belong to you.")))
    ∧ (∀ m1 m2, ApiError.accessDenied m1 ≠ ApiError.notFound m2)
    ∧ (∀ tasks o p, p ∈ userTasks tasks o → p.2.ownerId = o) := by
  refine ⟨?_, ?_, ?_, ?_⟩
  · intro tasks tid t o now htid ho hget hown
    have htr : truthy (some tid) = true := by simp [truthy, htid]
    have hot : truthy (some o) = true := by simp [truthy, ho]
    constructor
    · simp [taskStatusV1, htr, hget, hot, hown]
    · simp [stopTaskV1, htr, hget, hot, hown]
  · intro clients tasks req fp fc ro now s o hreq ho hsid hget hown
    have hot : truthy (some o) = true := by simp [truthy, ho]
    simp [sendMessageV1, hsid, hget, hreq, hot, hown]
  · intro m1 m2 h
    exact ApiError.noConfusion h
  · intro tasks o p hp
    simpa using (List.mem_filter.mp hp).2

/-- Witness for C1 (amended): owner "B" is denied on owner "A" task. -/
theorem C1_witness :
    taskStatusV1 demoTasks (some "TASK_100") (some "B")
        = Except.error (ApiError.accessDenied "Access denied. This task does not belong to you.")
    ∧ stopTaskV1 demoTasks (some "TASK_100") (some "B") 300
        = (demoTasks, Except.error (ApiError.accessDenied "Access denied. This task does not belong to you.")) :=
  C1_ownership_gate.1 demoTasks "TASK_100" demoTaskA "B" 300 (by decide) (by decide)
    (by decide) (by decide)

/-- C10: in the owner-aware variant the ownership gate is conditional on the
request actually carrying an owner identity: with `ownerId` absent,
task-status and stop-task behave exactly as the ungated simple variant and
send-message never raises access-denied; with a non-empty `ownerId` supplied
and the entity present, the result is access-denied precisely when the
supplied owner differs from the entity's owner.  (An empty-string `ownerId`
is falsy in JavaScript and counts as not supplied.) -/
theorem C10_conditional_gate :
    (∀ tasks tid, taskStatusV1 tasks tid none = taskStatusV0 tasks tid)
    ∧ (∀ tasks tid now, stopTaskV1 tasks tid none now = stopTaskV0 tasks tid now)
    ∧ (∀ clients tasks req fp fc ro now, req.ownerId = none →
        isAccessDenied (sendMessageV1 clients tasks req fp fc ro now).2 = false)
    ∧ (∀ tasks tid t o, tid ≠ "" → o ≠ "" → mget tasks tid = some t →
        (isAccessDenied (taskStatusV1 tasks (some tid) (some o)) = true ↔ t.ownerId ≠ o))
    ∧ (∀ tasks tid t o now, tid ≠ "" → o ≠ "" → mget tasks tid = some t →
        (isAccessDenied (stopTaskV1 tasks (some tid) (some o) now).2 = true ↔ t.ownerId ≠ o))
    ∧ (∀ clients tasks req fp fc ro now s o, req.ownerId = some o → o ≠ "" →
        truthy req.sessionId = true → mget clients (req.sessionId.getD "") = some s →
        (isAccessDenied (sendMessageV1 clients tasks req fp fc ro now).2 = true ↔ s.ownerId ≠ o)) := by
  refine ⟨?_, ?_, ?_, ?_, ?_, ?_⟩
  · intro tasks tid
    by_cases h : truthy tid = true
    · simp only [taskStatusV1, taskStatusV0, h]
      cases hm : mget tasks (tid.getD "") <;> simp [truthy]
    · simp only [Bool.not_eq_true] at h
      simp [taskStatusV1, taskStatusV0, h]
  · intro tasks tid now
    by_cases h : truthy tid = true
    · simp only [stopTaskV1, stopTaskV0, h]
      cases hm : mget tasks (tid.getD "") <;> simp [truthy]
    · simp only [Bool.not_eq_true] at h
      simp [stopTaskV1, stopTaskV0, h]
  · intro clients tasks req fp fc ro now hnone
    unfold sendMessageV1
    split
    · rfl
    · split
      · rfl
      · split
        · rename_i hc
          rw [hnone] at hc
          simp [truthy] at hc
        · dsimp only
          split_ifs <;> rfl
  · intro tasks tid t o htid ho hget
    have htr : truthy (some tid) = true := by simp [truthy, htid]
    have hot : truthy (some o) = true := by simp [truthy, ho]
    by_cases hown : t.ownerId = o
    · simp [taskStatusV1, htr, hget, hot, hown, isAccessDenied]
    · simp [taskStatusV1, htr, hget, hot, hown, isAccessDenied]
  · intro tasks tid t o now htid ho hget
    have htr : truthy (some tid) = true := by simp [truthy, htid]
    have hot : truthy (some o) = true := by simp [truthy, ho]
    by_cases hown : t.ownerId = o
    · by_cases hs : t.isSending = true <;>
        simp [stopTaskV1, htr, hget, hot, hown, hs, isAccessDenied]
    · simp [stopTaskV1, htr, hget, hot, hown, isAccessDenied]
  · intro clients tasks req fp fc ro now s o hreq ho hsid hget
    have hot : truthy (some o) = true := by simp [truthy, ho]
    by_cases hown : s.ownerId = o
    · constructor
      · intro hden
        exfalso
        revert hden
        unfold sendMessageV1
        rw [hsid]
        simp only [Bool.not_true, Bool.false_eq_true, if_false, hget]
        split
        · rename_i hc
          rw [hreq] at hc
          simp only [Option.getD_some] at hc
          exact absurd hown hc.2
        · split_ifs <;> simp [isAccessDenied]
      · intro hne
        exact absurd hown hne
    · constructor
      · intro _
        exact hown
      · intro _
        simp [sendMessageV1, hsid, hget, hreq, hot, hown, isAccessDenied]

/-- Witness for C10: the gate at concrete inputs — denied for a mismatched
supplied owner on the demo task. -/
theorem C10_witness :
    isAccessDenied (taskStatusV1 demoTasks (some "TASK_100") (some "B")) = true
      ↔ demoTaskA.ownerId ≠ "B" :=
  C10_conditional_gate.2.2.2.1 demoTasks "TASK_100" demoTaskA "B" (by decide) (by decide)
    (by decide)

/-- Counterexample for C5: a start request with a negative inter-item delay
(`delaySec = "-1"`) against a ready session and a non-empty message file is
accepted — a task is registered — because the handler only checks that
`delaySec` is a truthy string, never its sign. -/
theorem C5_counterexample :
    demoReqNegDelay.delaySec = some "-1"
    ∧ (sendMessageV0 demoClients [] demoReqNegDelay (some "uploads/f") "hello" true 555).2.toOption.isSome = true
    ∧ mhas (sendMessageV0 demoClients [] demoReqNegDelay (some "uploads/f") "hello" true 555).1 "TASK_555" = true := by
  decide

/-- C5 (amended): the start call fails synchronously with a descriptive error
and registers nothing when the session is unknown, when the session is not in
the Connected/ready state, or when the parsed item list is empty; a negative
delay, however, is not validated (only the presence of the `delaySec` field
is — see the counterexample), so "delay must be non-negative" does not hold. -/
theorem C5_start_validation :
    (∀ clients tasks req fp fc ro now,
      (truthy req.sessionId = false ∨ mget clients (req.sessionId.getD "") = none) →
      sendMessageV0 clients tasks req fp fc ro now
        = (tasks, Except.error (ApiError.badRequest "Invalid or inactive sessionId")))
    ∧ (∀ clients tasks req fp fc ro now s, truthy req.sessionId = true →
        mget clients (req.sessionId.getD "") = some s →
        (s.registered = false ∨ s.isConnecting = true) →
        sendMessageV0 clients tasks req fp fc ro now
          = (tasks, Except.error (ApiError.badRequest "Session not ready. Please wait for connection.")))
    ∧ (∀ clients tasks req fp fc ro now s cid, truthy req.sessionId = true →
        mget clients (req.sessionId.getD "") = some s →
        s.registered = true → s.isConnecting = false → s.client = some cid →
        truthy req.target = true → fp.isSome = true →
        truthy req.targetType = true → truthy req.delaySec = true →
        parseMessages fc = [] →
        sendMessageV0 clients tasks req fp fc ro now
          = (tasks, Except.error (ApiError.badRequest "Invalid message file"))) := by
  refine ⟨?_, ?_, ?_⟩
  · intro clients tasks req fp fc ro now h
    rcases h with h | h
    · simp [sendMessageV0, h]
    · by_cases ht : truthy req.sessionId = true
      · simp [sendMessageV0, ht, h]
      · simp only [Bool.not_eq_true] at ht
        simp [sendMessageV0, ht]
  · intro clients tasks req fp fc ro now s ht hget hnr
    rcases hnr with h | h <;> simp [sendMessageV0, ht, hget, h]
  · intro clients tasks req fp fc ro now s cid ht hget hreg hconn hcl htar hfp htt hdel hempty
    simp [sendMessageV0, ht, hget, hreg, hconn, hcl, htar, hfp, htt, hdel, hempty]

/-- Witness for C5 (amended): an unknown session and an empty message file
are each rejected synchronously with the task registry untouched. -/
theorem C5_witness :
    sendMessageV0 demoClients demoTasks { demoReq with sessionId := some "nope" } (some "uploads/f") "x" true 5
      = (demoTasks, Except.error (ApiError.badRequest "Invalid or inactive sessionId"))
    ∧ sendMessageV0 demoClients demoTasks demoReq (some "uploads/f") "  \n \n" true 5
      = (demoTasks, Except.error (ApiError.badRequest "Invalid message file")) :=
  ⟨C5_start_validation.1 demoClients demoTasks { demoReq with sessionId := some "nope" }
      (some "uploads/f") "x" true 5 (Or.inr (by decide)),
   C5_start_validation.2.2 demoClients demoTasks demoReq (some "uploads/f") "  \n \n" true 5
      demoSession 1 (by decide) (by decide) (by decide) (by decide) (by decide) (by decide)
      (by decide) (by decide) (by decide) (by decide)⟩

/-- Counterexample for C9: two start requests accepted in the same
millisecond (777) — differing in their target — are assigned the same
`TASK_777` identifier, and the second registration overwrites the first:
the registry holds a single entry, carrying the second request's target. -/
theorem C9_counterexample :
    (c9run1.2.toOption.map TaskInfo.taskId = some "TASK_777")
    ∧ (c9run2.2.toOption.map TaskInfo.taskId = some "TASK_777")
    ∧ c9run2.1.length = 1
    ∧ (mget c9run2.1 "TASK_777").map TaskInfo.target = some "15550003" := by
  decide

/-- C9 (amended): the task identifier is a pure function of the wall-clock
millisecond (`TASK_` followed by `Date.now()`), so any two dispatch-start
requests accepted at the same millisecond are assigned the same taskId, and
the later registration overwrites the earlier registry entry — identifiers
are not unique for the process lifetime. -/
theorem C9_same_millisecond (clients : List (String × SessionInfo))
    (tasks tasks1 tasks2 : List (String × TaskInfo)) (req1 req2 : StartReq)
    (fp1 fp2 : Option String) (fc1 fc2 : String) (ro1 ro2 : Bool) (now : Nat)
    (t1 t2 : TaskInfo)
    (h1 : sendMessageV0 clients tasks req1 fp1 fc1 ro1 now = (tasks1, Except.ok t1))
    (h2 : sendMessageV0 clients tasks1 req2 fp2 fc2 ro2 now = (tasks2, Except.ok t2)) :
    t1.taskId = mkTaskId now ∧ t2.taskId = mkTaskId now ∧ t1.taskId = t2.taskId
    ∧ mget tasks2 t1.taskId = some t2 := by
  obtain ⟨a1, _, _, e1⟩ := sendMessageV0_ok h1
  obtain ⟨a2, _, _, e2⟩ := sendMessageV0_ok h2
  refine ⟨a1, a2, a1.trans a2.symm, ?_⟩
  rw [e2, a1, mget_mset]
  simp

/-- Witness for C9 (amended): the two concrete same-millisecond start calls
of the counterexample share the identifier and the registry ends holding the
second task. -/
theorem C9_witness :
    c9task1.taskId = mkTaskId 777 ∧ c9task2.taskId = mkTaskId 777
    ∧ c9task1.taskId = c9task2.taskId
    ∧ mget [("TASK_777", c9task2)] c9task1.taskId = some c9task2 :=
  C9_same_millisecond demoClients [] [("TASK_777", c9task1)] [("TASK_777", c9task2)]
    demoReq demoReqB (some "uploads/f1") (some "uploads/f2") "a\nb" "c\nd" true true 777
    c9task1 c9task2 (by rfl) (by rfl)

/-- C6: with a valid, owner-matched, ready session — (a) when the cached
listing is non-empty and `groupsLastFetched` is within the fixed 5-minute
TTL, `/groups` returns the cached copy and issues no underlying fetch call;
(b) a first fetch on a cold cache issues exactly one underlying call and a
second fetch within the TTL issues none, so the pair issues exactly one;
(c) a fetch whose cache-validity test fails (TTL expired or no cache)
issues a new call; (d) the forced-refresh variant always issues a call. -/
theorem C6_directory_cache (clients : List (String × SessionInfo)) (sid o : String)
    (s : SessionInfo) (now now2 : Nat) (fetch fetch2 : FetchOutcome)
    (hsid : sid ≠ "") (ho : o ≠ "") (hget : mget clients sid = some s)
    (hown : s.ownerId = o) (hreg : s.registered = true) (hconn : s.isConnecting = false) :
    (∀ gs lf, s.groups = some gs → gs ≠ [] → s.groupsLastFetched = some lf → lf ≠ 0 →
      ((lf : Int) > (now : Int) - 5 * 60 * 1000) →
      getGroups clients (some sid) (some o) now fetch
        = (clients, Except.ok { groups := gs, total := gs.length, cached := true }, 0))
    ∧ (∀ cid raw, s.client = some cid → s.groupsLastFetched = none → now ≠ 0 →
        ((now : Int) > (now2 : Int) - 5 * 60 * 1000) →
        (getGroups clients (some sid) (some o) now (FetchOutcome.ok raw)).2.2 = 1
        ∧ (getGroups (getGroups clients (some sid) (some o) now (FetchOutcome.ok raw)).1
            (some sid) (some o) now2 fetch2).2.2 = 0)
    ∧ (∀ cid, s.client = some cid → cacheFresh s now = false →
        (getGroups clients (some sid) (some o) now fetch).2.2 = 1)
    ∧ (∀ cid, s.client = some cid →
        (refreshGroups clients (some sid) (some o) now fetch).2.2 = 1) := by
  have htr : truthy (some sid) = true := by simp [truthy, hsid]
  have hot : truthy (some o) = true := by simp [truthy, ho]
  refine ⟨?_, ?_, ?_, ?_⟩
  · intro gs lf hgs hne hlf hlf0 hfresh
    have hcf : cacheFresh s now = true := by
      simp [cacheFresh, hgs, hlf, hlf0]
      omega
    simp [getGroups, htr, hot, hget, hown, hreg, hconn, hcf, hgs]
  · intro cid raw hcl hlfnone hnow0 hfresh2
    have hcf : cacheFresh s now = false := by
      cases hg : s.groups <;> simp [cacheFresh, hlfnone, hg]
    set s1 : SessionInfo :=
      { s with groups := some (sortGroups (raw.map mkGroupEntry)), groupsLastFetched := some now } with hs1
    have hc1 : getGroups clients (some sid) (some o) now (FetchOutcome.ok raw)
        = (mset clients sid s1,
           Except.ok { groups := sortGroups (raw.map mkGroupEntry), total := (sortGroups (raw.map mkGroupEntry)).length, cached := false }, 1) := by
      rw [hs1]
      simp [getGroups, htr, hot, hget, hown, hreg, hconn, hcf, hcl]
    have hg2 : mget (mset clients sid s1) sid = some s1 := by
      rw [mget_mset]
      simp
    have hown1 : s1.ownerId = o := by
      rw [hs1]
      exact hown
    have hreg1 : s1.registered = true := by
      rw [hs1]
      exact hreg
    have hconn1 : s1.isConnecting = false := by
      rw [hs1]
      exact hconn
    have hcf2 : cacheFresh s1 now2 = true := by
      rw [hs1]
      simp [cacheFresh, hnow0]
      omega
    refine ⟨by rw [hc1], ?_⟩
    rw [hc1]
    simp [getGroups, htr, hot, hg2, hown1, hreg1, hconn1, hcf2, hown, hreg, hconn]
  · intro cid hcl hcf
    cases fetch <;> simp [getGroups, htr, hot, hget, hown, hreg, hconn, hcf, hcl]
  · intro cid hcl
    cases fetch <;> simp [refreshGroups, htr, hot, hget, hown, hreg, hconn, hcl]

/-- Witness for C6: the demo cached session served from cache with zero
underlying calls at a time inside the TTL, while a forced refresh at the
same time still issues a call. -/
theorem C6_witness :
    getGroups demoCachedClients (some "session_15550001_A") (some "A") 200000 (FetchOutcome.ok [])
      = (demoCachedClients, Except.ok { groups := [demoGroup], total := 1, cached := true }, 0)
    ∧ (refreshGroups demoCachedClients (some "session_15550001_A") (some "A") 200000 (FetchOutcome.ok [])).2.2 = 1 :=
  ⟨(C6_directory_cache demoCachedClients "session_15550001_A" "A" demoCachedSession 200000 0
      (FetchOutcome.ok []) (FetchOutcome.ok []) (by decide) (by decide) (by decide) (by decide)
      (by decide) (by decide)).1 [demoGroup] 100000 (by decide) (by decide) (by decide)
      (by decide) (by decide),
   (C6_directory_cache demoCachedClients "session_15550001_A" "A" demoCachedSession 200000 0
      (FetchOutcome.ok []) (FetchOutcome.ok []) (by decide) (by decide) (by decide) (by decide)
      (by decide) (by decide)).2.2.2 1 (by decide)⟩

/-- Counterexample for C7: a forced refresh whose underlying fetch fails
leaves the session's cached directory cleared (`groups = null`,
`groupsLastFetched = null`) rather than exactly what it was before the call,
because the handler clears the cache before fetching. -/
theorem C7_counterexample :
    demoCachedSession.groups = some [demoGroup]
    ∧ (refreshGroups demoCachedClients (some "session_15550001_A") (some "A") 200000 (FetchOutcome.fail "boom")).2.1
        = Except.error (ApiError.serverError "Failed to refresh groups: boom")
    ∧ (mget (refreshGroups demoCachedClients (some "session_15550001_A") (some "A") 200000 (FetchOutcome.fail "boom")).1
          "session_15550001_A").map SessionInfo.groups = some none :=
  ⟨rfl, rfl, rfl⟩

/-- C7 (amended): when the underlying fetch fails, the plain `/groups` fetch
propagates a typed 500 error and leaves the session registry — hence the
cached directory — exactly as it was; the forced refresh also propagates a
typed 500 error but has already cleared the cached groups and timestamp
before fetching, so the session ends with an empty cache instead of its
previous contents. -/
theorem C7_fetch_failure (clients : List (String × SessionInfo)) (sid o m : String)
    (s : SessionInfo) (now : Nat) (cid : Nat)
    (hsid : sid ≠ "") (ho : o ≠ "") (hget : mget clients sid = some s)
    (hown : s.ownerId = o) (hreg : s.registered = true) (hconn : s.isConnecting = false)
    (hcl : s.client = some cid) :
    (cacheFresh s now = false →
      getGroups clients (some sid) (some o) now (FetchOutcome.fail m)
        = (clients, Except.error (ApiError.serverError ("Failed to fetch groups: " ++ jsOrStr m "Unknown error")), 1))
    ∧ refreshGroups clients (some sid) (some o) now (FetchOutcome.fail m)
        = (mset clients sid { s with groups := none, groupsLastFetched := none },
           Except.error (ApiError.serverError ("Failed to refresh groups: " ++ jsOrStr m "Unknown error")), 1) := by
  have htr : truthy (some sid) = true := by simp [truthy, hsid]
  have hot : truthy (some o) = true := by simp [truthy, ho]
  constructor
  · intro hcf
    simp [getGroups, htr, hot, hget, hown, hreg, hconn, hcf, hcl]
  · simp [refreshGroups, htr, hot, hget, hown, hreg, hconn, hcl]

/-- Witness for C7 (amended): a failed plain fetch leaves the cold demo
registry untouched; a failed refresh on the cached demo registry stores the
cleared session. -/
theorem C7_witness :
    getGroups demoClients (some "session_15550001_A") (some "A") 9 (FetchOutcome.fail "x")
      = (demoClients, Except.error (ApiError.serverError "Failed to fetch groups: x"), 1)
    ∧ refreshGroups demoCachedClients (some "session_15550001_A") (some "A") 9 (FetchOutcome.fail "x")
      = (mset demoCachedClients "session_15550001_A" { demoCachedSession with groups := none, groupsLastFetched := none },
         Except.error (ApiError.serverError "Failed to refresh groups: x"), 1) :=
  ⟨(C7_fetch_failure demoClients "session_15550001_A" "A" "x" demoSession 9 1 (by decide)
      (by decide) (by decide) (by decide) (by decide) (by decide) (by decide)).1 (by decide),
   (C7_fetch_failure demoCachedClients "session_15550001_A" "A" "x" demoCachedSession 9 1
      (by decide) (by decide) (by decide) (by decide) (by decide) (by decide) (by decide)).2⟩

/-- Counterexample for C8: reconnection via `initializeClient` on a session
whose previous client object (1) was created and never closed builds a
second client (2) without emitting any close event — afterwards two clients
have been created and never closed for the one session, so the transition
did not discard/close the previous client object before creating the new
one, and two clients are live at once. -/
theorem C8_counterexample :
    demoSession.client = some 1
    ∧ (initializeClient demoSession true 2).2.all
        (fun e => match e with | ClientEvent.close _ => false | _ => true) = true
    ∧ liveClients ([ClientEvent.create 1] ++ (initializeClient demoSession true 2).2) = [1, 2]
    ∧ 2 ≤ (liveClients ([ClientEvent.create 1] ++ (initializeClient demoSession true 2).2)).length := by
  decide

/-- C8 (amended): the reconnection transition `initializeClient` installs the
fresh client on the handle and emits exactly one create event and no close
event; consequently every client live before the transition is still live
after it, alongside the new one — the previous client object is never closed
by the transition, so at-most-one-live-client is not enforced. -/
theorem C8_reconnect_no_close (s : SessionInfo) (nid : Nat) (tr : List ClientEvent) (c : Nat)
    (hc : c ∈ liveClients tr) :
    (initializeClient s true nid).1.client = some nid
    ∧ (initializeClient s true nid).2 = [ClientEvent.create nid]
    ∧ (∀ i, ClientEvent.close i ∉ (initializeClient s true nid).2)
    ∧ c ∈ liveClients (tr ++ (initializeClient s true nid).2)
    ∧ nid ∈ liveClients (tr ++ (initializeClient s true nid).2) := by
  have h2 : (initializeClient s true nid).2 = [ClientEvent.create nid] := rfl
  have hl : liveClients (tr ++ [ClientEvent.create nid]) = liveClients tr ++ [nid] := by
    simp [liveClients, List.foldl_append]
  refine ⟨rfl, rfl, ?_, ?_, ?_⟩
  · intro i h
    rw [h2] at h
    simp at h
  · rw [h2, hl]
    exact List.mem_append_left _ hc
  · rw [h2, hl]
    exact List.mem_append_right _ (List.mem_singleton.mpr rfl)

/-- Witness for C8 (amended): reconnecting the demo session (live client 1)
with new client 2 leaves both 1 and 2 created-and-never-closed. -/
theorem C8_witness :
    (initializeClient demoSession true 2).1.client = some 2
    ∧ (initializeClient demoSession true 2).2 = [ClientEvent.create 2]
    ∧ (∀ i, ClientEvent.close i ∉ (initializeClient demoSession true 2).2)
    ∧ 1 ∈ liveClients ([ClientEvent.create 1] ++ (initializeClient demoSession true 2).2)
    ∧ 2 ∈ liveClients ([ClientEvent.create 1] ++ (initializeClient demoSession true 2).2) :=
  C8_reconnect_no_close demoSession 2 [ClientEvent.create 1] 1 (by decide)

end WpServer
